import Mathlib

/-!
Verification development for the triage-ninja issue-triage pipeline.

Shallow embedding of the source:
  * `agent.py` — `TriageState`, the five pipeline phases and `triage_new_issue`;
  * `discord_bot.py` — the pending-decision registry, the button/timeout
    resolution writes and `send_triage_request` (the decision broker);
  * `tools/discord_tools_portia.py` — `DiscordManager.send_triage_request`
    and `ModifyModal.on_submit`;
  * `tools/github_tools_portia.py` — `GitHubManager` (every operation catches
    its own exceptions and returns a success boolean, never raises);
  * `tools/weaviate_tools_portia.py` — `WeaviateManager.find_duplicate` /
    `add_issue` (`add_issue` stores the issue in every branch — real insert or
    the in-memory mock list — and never raises);
  * `tools/ai_tools_portia.py` — `draft_duplicate_comment`.

External collaborators (Gemini, Weaviate, GitHub, Discord transport) are
modelled as oracles: per-run functions giving the value each call returns,
or the exception it raises, so theorems quantify over every collaborator
behaviour.  Python floats are modelled as `Rat`, Python `None`-vs-absent
dictionary entries as nested `Option`s, and the insertion-ordered dictionaries
(`pending_decisions`, `actions_executed`) as association lists.
-/

namespace TriageNinja

/-- Rendering of a Python `Optional[str]` inside an f-string: `None` prints
as the four-character string `"None"`. -/
def pyStr : Option String → String
  | none => "None"
  | some s => s

/-- Payload dictionary of a human decision (`data` in the source).  The outer
`Option` is key presence in the dict, the inner `Option` is the stored value
(which `ModifyModal` explicitly sets to `None` for the field that does not
apply).  `modified` is the `"modified": True` flag of `discord_bot.ModifyModal`
(absent = `false`). -/
structure DecisionData where
  severity : Option (Option String) := none
  summary : Option (Option String) := none
  comment : Option (Option String) := none
  modified : Bool := false
deriving Repr, DecidableEq

/-- Python `dict.get(key, default)`: the default is used only when the key is
absent; a key stored with value `None` returns `None`. -/
def getOr (field : Option (Option String)) (dflt : Option String) : Option String :=
  match field with
  | none => dflt
  | some v => v

/-- A resolved human decision record: `{"decision": ..., "data": {...}}`. -/
structure Decision where
  decision : String
  data : DecisionData := {}
deriving Repr, DecidableEq

/-- The synthesized record returned on timeout:
`{"decision": "timeout", "data": {}}` (`discord_bot.py` line 374 and
`TriageView.on_timeout`). -/
def timeoutRecord : Decision := { decision := "timeout", data := {} }

/-- Inbound issue payload (the `issue` object of the webhook), with the keys
`TriageState.__init__` reads; absent keys are `none`. -/
structure IssueData where
  number : Option Int := none
  title : Option String := none
  body : Option String := none
  html_url : Option String := none
  repository_full_name : Option String := none
deriving Repr, DecidableEq

/-- `TriageState` (`agent.py` lines 19-34). -/
structure TriageState where
  issue_id : Int
  issue_title : String
  issue_body : String
  issue_url : String
  repository : String
  severity : Option String := none
  ai_summary : Option String := none
  is_duplicate : Bool := false
  similarity_score : Option Rat := none
  duplicate_issue_id : Option Int := none
  proposed_comment : Option String := none
  human_decision : Option Decision := none
  actions_executed : List (String × Bool) := []
  completion_message_sent : Bool := false
deriving Repr, DecidableEq

/-- `TriageState.__init__`: field extraction with the source's defaults. -/
def TriageState.init (d : IssueData) : TriageState :=
  { issue_id := d.number.getD 0
    issue_title := d.title.getD "Unknown"
    issue_body := d.body.getD ""
    issue_url := d.html_url.getD ""
    repository := d.repository_full_name.getD "unknown/repo" }

/-- Python dict assignment `m[k] = b` on an insertion-ordered dict: update in
place if the key exists, else append. -/
def setAction (m : List (String × Bool)) (k : String) (b : Bool) : List (String × Bool) :=
  if m.any (fun p => p.1 == k) then
    m.map (fun p => if p.1 == k then (k, b) else p)
  else
    m ++ [(k, b)]

/-! ## Analysis phase (AnalysisProvider) -/

/-- Oracle for `AIManager.classify_severity` / `summarize_issue`: each call
either returns text or raises. -/
structure AnalysisOracle where
  classify_severity : String → String → Except String String
  summarize_issue : String → String → Except String String

/-- `SophisticatedTriageAgent._perform_ai_analysis` (`agent.py` 92-101):
severity is assigned, then the summary; any exception falls back to
severity `"Medium"` and summary `f"Issue: {state.issue_title}"`. -/
def perform_ai_analysis (ai : AnalysisOracle) (s : TriageState) : TriageState :=
  match ai.classify_severity s.issue_title s.issue_body with
  | .error _ =>
    { s with severity := some "Medium", ai_summary := some ("Issue: " ++ s.issue_title) }
  | .ok sev =>
    let s1 := { s with severity := some sev }
    match ai.summarize_issue s1.issue_title s1.issue_body with
    | .error _ =>
      { s1 with severity := some "Medium", ai_summary := some ("Issue: " ++ s1.issue_title) }
    | .ok summary => { s1 with ai_summary := some summary }

/-! ## Duplicate-detection phase (DuplicateIndex) -/

/-- Oracle for `WeaviateManager.find_duplicate`: given title, body and
threshold, returns the Python pair `(duplicate_id, similarity_score)` of
`Optional` values, or raises. -/
structure DuplicateOracle where
  find_duplicate : String → String → Rat → Except String (Option Int × Option Rat)

/-- `AIManager.draft_duplicate_comment` (`ai_tools_portia.py` 139-154): pure
string formatting (the `{:.1%}` float rendering is abstracted to a plain
decimal rendering; no claim depends on the digits). -/
def draft_duplicate_comment (original_issue_id : Int) (similarity_score : Rat) : String :=
  "\nThis issue appears to be a duplicate of #" ++ toString original_issue_id ++
  " (Similarity: " ++ toString (similarity_score * 100) ++ "%).\n\n" ++
  "Please review the original issue and add any additional information there if needed. " ++
  "This issue will be closed to avoid fragmentation.\n"

/-- `SophisticatedTriageAgent._perform_duplicate_detection` (`agent.py`
103-120).  The guard is the source's Python truthiness test
`if duplicate_id and similarity_score:` — `None` and the number zero are
falsy.  On an exception from `find_duplicate`, `is_duplicate` is forced to
`False` (no other field is touched). -/
def perform_duplicate_detection (dup : DuplicateOracle) (s : TriageState) : TriageState :=
  match dup.find_duplicate s.issue_title s.issue_body ((85 : Rat)/100) with
  | .error _ => { s with is_duplicate := false }
  | .ok (some duplicate_id, some similarity_score) =>
    if duplicate_id ≠ 0 ∧ similarity_score ≠ 0 then
      { s with is_duplicate := true
               similarity_score := some similarity_score
               duplicate_issue_id := some duplicate_id
               proposed_comment := some (draft_duplicate_comment duplicate_id similarity_score) }
    else s
  | .ok _ => s

/-! ## Decision broker (`discord_bot.py`) -/

/-- The process-wide pending-decision registry `pending_decisions`
(`discord_bot.py` line 20): an insertion-ordered dict from decision key to an
`asyncio.Future` slot; `none` = future not done, `some d` = resolved with
record `d`. -/
abbrev Registry := List (String × Option Decision)

/-- Dict membership / value read. -/
def Registry.lookup : Registry → String → Option (Option Decision)
  | [], _ => none
  | (k, v) :: rest, key => if k = key then some v else Registry.lookup rest key

/-- Dict assignment `reg[key] = v`. -/
def Registry.setKey : Registry → String → Option Decision → Registry
  | [], key, v => [(key, v)]
  | (k, w) :: rest, key, v =>
    if k = key then (key, v) :: rest else (k, w) :: Registry.setKey rest key v

/-- Dict deletion `del reg[key]` (dict keys are unique, so removing every
occurrence from the association list is the same operation). -/
def Registry.eraseKey (reg : Registry) (key : String) : Registry :=
  reg.filter (fun p => p.1 ≠ key)

/-- Dict membership test `key in reg`. -/
def Registry.containsKey (reg : Registry) (key : String) : Bool :=
  (Registry.lookup reg key).isSome

/-- The decision key for an issue: `f"issue_{issue_number}"`. -/
def decisionKey (issue_number : Int) : String := "issue_" ++ toString issue_number

/-- A resolve attempt on the registry, as performed by
`TriageView.approve_button` / `reject_button`, `ModifyModal.on_submit` and
`TriageView.on_timeout` (`discord_bot.py` 135-219):
`if decision_key in pending_decisions: if not done(): set_result(record)`.
Absent key or already-done future is a no-op. -/
def resolveDecision (reg : Registry) (key : String) (d : Decision) : Registry :=
  match Registry.lookup reg key with
  | none => reg
  | some (some _) => reg
  | some none => Registry.setKey reg key (some d)

/-- The registration step of `send_triage_request` (`discord_bot.py` 355-356):
a plain dict assignment installing a fresh unresolved future, with no check of
an existing entry. -/
def register_pending_decision (reg : Registry) (issue_number : Int) : Registry :=
  Registry.setKey reg (decisionKey issue_number) none

/-- The source's manual wait loop timeout: `timeout_duration = 3700` seconds
("just over 1 hour"), checked against the elapsed time with one `sleep(1)`
per iteration. -/
def timeout_duration : Nat := 3700

/-- Whether the pending future reads as done at a given poll iteration. -/
def futureDone (doneAt : Option Nat) (elapsed : Nat) : Bool :=
  match doneAt with
  | some k => decide (k ≤ elapsed)
  | none => false

/-- The busy-wait loop of `send_triage_request` (`discord_bot.py` 364-381),
one recursive step per iteration; `elapsed` counts iterations (one second of
elapsed time each).  `doneAt` is the iteration at which the future is first
observed resolved (`none` = never), `result` the record it was resolved with.
Fuel makes the recursion structural; `bot_send_triage_request` supplies more
fuel than the loop can consume before its own timeout return fires. -/
def pollLoop (doneAt : Option Nat) (result : Decision) : Nat → Nat → Decision
  | 0, _ => timeoutRecord
  | fuel + 1, elapsed =>
    if futureDone doneAt elapsed then result
    else if timeout_duration < elapsed then timeoutRecord
    else pollLoop doneAt result fuel (elapsed + 1)

/-- Scenario datum for one `discord_bot.send_triage_request` run: whether the
channel lookup and the message send succeed, and whether (and at which poll
iteration, with which record) some writer resolves the pending future. -/
structure BotScenario where
  channel_ok : Bool
  send_ok : Bool
  resolution : Option (Nat × Decision)
deriving Repr, DecidableEq

/-- `discord_bot.send_triage_request` (`discord_bot.py` 229-396).
Control flow of the source: an inaccessible channel or a failed send raises
(wrapped as `"Discord integration failed: ..."`); otherwise the message is
sent, the pending future is registered, and the poll loop waits until the
future resolves or `timeout_duration` elapses (returning the synthesized
timeout record).  The `finally` block unconditionally deletes the decision
key from the registry on every exit path.  The completion-message step after
a resolution catches all its own exceptions, so it cannot change the
result. -/
def bot_send_triage_request (sc : BotScenario) (reg : Registry) (issue_number : Int) :
    Except String Decision × Registry :=
  let key := decisionKey issue_number
  if !sc.channel_ok then
    (.error "Discord integration failed: Discord channel not accessible - HUMAN INPUT REQUIRED",
     Registry.eraseKey reg key)
  else if !sc.send_ok then
    (.error "Discord integration failed: message send failed - HUMAN INPUT REQUIRED",
     Registry.eraseKey reg key)
  else
    let reg1 := register_pending_decision reg issue_number
    match sc.resolution with
    | some (k, d) =>
      let reg2 := resolveDecision reg1 key d
      (.ok (pollLoop (some k) d 4000 0), Registry.eraseKey reg2 key)
    | none =>
      (.ok (pollLoop none timeoutRecord 4000 0), Registry.eraseKey reg1 key)

/-! ## Interactive-channel manager (`tools/discord_tools_portia.py`) -/

/-- Scenario datum for one `DiscordManager.send_triage_request` run:
whether `config.DISCORD_WEBHOOK_URL` is configured (non-empty), whether
`from discord_bot import ...` succeeds, whether the fallback webhook POST
succeeds, and the forwarded bot scenario. -/
structure ChannelScenario where
  webhook_configured : Bool
  bot_import_ok : Bool
  webhook_post_ok : Bool
  bot : BotScenario
deriving Repr, DecidableEq

/-- `DiscordManager.send_triage_request` (`discord_tools_portia.py` 288-369).
Source control flow: with no webhook URL it returns
`{"decision": "approve", "data": {}}` immediately; with the interactive bot
importable it delegates to `discord_bot.send_triage_request` (the
event-loop dispatch variants produce the same result) and re-raises its
failures wrapped; on `ImportError` it posts a webhook notification and then
always raises (webhook-only mode cannot collect a human decision). -/
def manager_send_triage_request (sc : ChannelScenario) (reg : Registry)
    (issue_number : Int) : Except String Decision × Registry :=
  if !sc.webhook_configured then
    (.ok { decision := "approve", data := {} }, reg)
  else if sc.bot_import_ok then
    match bot_send_triage_request sc.bot reg issue_number with
    | (.ok d, regOut) => (.ok d, regOut)
    | (.error e, regOut) =>
      (.error ("Discord triage request failed: " ++ e ++ " - HUMAN INPUT REQUIRED"), regOut)
  else
    if sc.webhook_post_ok then
      (.error ("Discord triage request failed: Discord bot integration failed - " ++
               "Cannot proceed without human interaction - HUMAN INPUT REQUIRED"), reg)
    else
      (.error "Discord triage request failed: webhook transport error - HUMAN INPUT REQUIRED",
       reg)

/-- Decision record built by `ModifyModal.on_submit`
(`discord_tools_portia.py` 163-177): kind `"modify"`, with the text routed to
`comment` for a duplicate and to `summary` otherwise (the unused field is
stored explicitly as `None`, and there is no `"modified"` key). -/
def modify_modal_decision (severity_value text_value : String) (is_duplicate : Bool) : Decision :=
  { decision := "modify"
    data := { severity := some (some severity_value)
              summary := some (if is_duplicate then none else some text_value)
              comment := some (if is_duplicate then some text_value else none)
              modified := false } }

/-! ## Decision execution (`agent.py` 140-202, `tools/github_tools_portia.py`) -/

/-- Oracle for `GitHubManager`: every operation wraps its own body in
`try/except` and returns a success boolean, never raising
(`github_tools_portia.py` 50-118).  `post_comment`'s text and `add_label`'s
label are `Optional` because the agent can pass a `None` inherited from the
decision payload (the manager then fails internally and returns `False`). -/
structure StoreOracle where
  post_comment : Int → Option String → Bool
  add_label : Int → Option String → Bool
  close_issue : Int → String → Bool

/-- Trace entry for a side-effecting collaborator call made during decision
execution: the three `RecordStore` mutations plus the DuplicateIndex
registration (`WeaviateManager.add_issue`, which stores the issue in every
branch of its implementation and never raises). -/
inductive StoreCall
  | postComment (issue : Int) (body : Option String)
  | addLabel (issue : Int) (label : Option String)
  | closeIssue (issue : Int) (reason : String)
  | registerKb (issue : Int) (title body : String)
deriving Repr, DecidableEq

/-- Emoji lookup `severity_emoji` of `agent.py` 166-169 (`dict.get` with
default; a `None` severity misses every key). -/
def severityEmoji (label : Option String) : String :=
  match label with
  | some "Critical" => "🔴"
  | some "High" => "🟠"
  | some "Medium" => "🟡"
  | some "Low" => "🟢"
  | some "Info" => "🔵"
  | _ => "📋"

/-- The formatted analysis comment `summary_comment` of `agent.py` 171-183. -/
def summaryComment (severity_label summary : Option String) : String :=
  "## " ++ severityEmoji severity_label ++ " AI Triage Analysis\n\n" ++
  "**Severity Classification:** " ++ pyStr severity_label ++ "\n\n" ++
  "**Analysis Summary:**\n" ++ pyStr summary ++ "\n\n" ++
  "**Recommended Actions:**\n" ++
  "- Issue has been classified as **" ++ pyStr severity_label ++ "** priority\n" ++
  "- Appropriate severity label has been applied\n" ++
  "- Issue details have been recorded in the knowledge base\n\n" ++
  "*This analysis was generated by AI and approved by a human triager.*"

/-- `SophisticatedTriageAgent._execute_decision` (`agent.py` 140-202), given
the resolved decision record (the pipeline only reaches this phase with
`human_decision` set).  Returns the updated state together with the trace of
collaborator calls made.  The agent's own `except` branches around the two
approve sub-branches are unreachable because `GitHubManager` methods and
`WeaviateManager.add_issue` catch their own exceptions; a decision kind other
than `approve`/`reject`/`timeout` matches no branch and does nothing. -/
def execute_decision (gh : StoreOracle) (d : Decision) (s : TriageState) :
    TriageState × List StoreCall :=
  if d.decision = "approve" then
    let comment := getOr d.data.comment s.proposed_comment
    if s.is_duplicate then
      let b1 := gh.post_comment s.issue_id comment
      let m1 := setAction s.actions_executed "comment_posted" b1
      let b2 := gh.add_label s.issue_id (some "duplicate")
      let m2 := setAction m1 "duplicate_label_added" b2
      let b3 := gh.close_issue s.issue_id "duplicate"
      let m3 := setAction m2 "issue_closed" b3
      ({ s with actions_executed := m3 },
       [StoreCall.postComment s.issue_id comment,
        StoreCall.addLabel s.issue_id (some "duplicate"),
        StoreCall.closeIssue s.issue_id "duplicate"])
    else
      let severity_label := getOr d.data.severity s.severity
      let summary := getOr d.data.summary s.ai_summary
      let b1 := gh.add_label s.issue_id severity_label
      let m1 := setAction s.actions_executed "severity_label_added" b1
      let b2 := gh.post_comment s.issue_id (some (summaryComment severity_label summary))
      let m2 := setAction m1 "summary_posted" b2
      let m3 := setAction m2 "added_to_knowledge_base" true
      ({ s with actions_executed := m3 },
       [StoreCall.addLabel s.issue_id severity_label,
        StoreCall.postComment s.issue_id (some (summaryComment severity_label summary)),
        StoreCall.registerKb s.issue_id s.issue_title s.issue_body])
  else if d.decision = "reject" then
    ({ s with actions_executed := setAction s.actions_executed "rejected" true }, [])
  else if d.decision = "timeout" then
    ({ s with actions_executed := setAction s.actions_executed "timed_out" true }, [])
  else
    (s, [])

/-! ## Full pipeline (`agent.py` 62-90, 122-138, 204-227) -/

/-- All per-run collaborator behaviour the pipeline consumes.
`completion_sent` is the boolean `DiscordManager.send_completion_message`
returns (it catches its own exceptions; phase 5 additionally catches, so the
notification can never affect the pipeline outcome). -/
structure Oracles where
  ai : AnalysisOracle
  dup : DuplicateOracle
  channel : ChannelScenario
  gh : StoreOracle
  completion_sent : Bool

/-- The dictionary `triage_new_issue` returns (`agent.py` 73-90): the success
shape echoes the final state, the failure shape carries only the issue number
and the error text. -/
structure TriageResult where
  success : Bool
  issue_number : Int
  severity : Option String := none
  ai_summary : Option String := none
  is_duplicate : Bool := false
  similarity_score : Option Rat := none
  human_decision : Option Decision := none
  actions_executed : List (String × Bool) := []
  completion_sent : Bool := false
  error : Option String := none
deriving Repr, DecidableEq

/-- `SophisticatedTriageAgent.triage_new_issue` (`agent.py` 62-90) together
with `_request_human_clarification` (122-138) and
`_send_completion_notification` (204-227).  Phase 3 wraps a channel failure
as `"Human clarification required but failed: ..."` and re-raises; the
top-level handler turns that into `success=False` with the error text, and
no later phase runs.  Returns the result, the decision-phase collaborator
call trace, and the final pending-decision registry. -/
def triage_new_issue (o : Oracles) (reg : Registry) (issue : IssueData) :
    TriageResult × List StoreCall × Registry :=
  let s0 := TriageState.init issue
  let s1 := perform_ai_analysis o.ai s0
  let s2 := perform_duplicate_detection o.dup s1
  let broker := manager_send_triage_request o.channel reg s2.issue_id
  match broker.1 with
  | .error e =>
    ({ success := false
       issue_number := s0.issue_id
       error := some ("Human clarification required but failed: " ++ e) },
     [], broker.2)
  | .ok d =>
    let s3 := { s2 with human_decision := some d }
    let exec := execute_decision o.gh d s3
    let s5 := { exec.1 with completion_message_sent := o.completion_sent }
    ({ success := true
       issue_number := s5.issue_id
       severity := s5.severity
       ai_summary := s5.ai_summary
       is_duplicate := s5.is_duplicate
       similarity_score := s5.similarity_score
       human_decision := s5.human_decision
       actions_executed := s5.actions_executed
       completion_sent := s5.completion_message_sent },
     exec.2, broker.2)

/-! ## Registry and wait-loop lemmas -/

theorem Registry.lookup_setKey_self (reg : Registry) (key : String) (v : Option Decision) :
    Registry.lookup (Registry.setKey reg key v) key = some v := by
  induction reg with
  | nil => simp [Registry.setKey, Registry.lookup]
  | cons p rest ih =>
    obtain ⟨k, w⟩ := p
    by_cases h : k = key
    · simp [Registry.setKey, Registry.lookup, h]
    · simp [Registry.setKey, Registry.lookup, h, ih]

theorem Registry.lookup_eraseKey_self (reg : Registry) (key : String) :
    Registry.lookup (Registry.eraseKey reg key) key = none := by
  induction reg with
  | nil => simp [Registry.eraseKey, Registry.lookup]
  | cons p rest ih =>
    obtain ⟨k, w⟩ := p
    by_cases h : k = key
    · simpa [Registry.eraseKey, Registry.lookup, h] using ih
    · simpa [Registry.eraseKey, Registry.lookup, h] using ih

theorem Registry.containsKey_eraseKey (reg : Registry) (key : String) :
    Registry.containsKey (Registry.eraseKey reg key) key = false := by
  simp [Registry.containsKey, Registry.lookup_eraseKey_self]

theorem pollLoop_never_resolved (r : Decision) (fuel elapsed : Nat) :
    pollLoop none r fuel elapsed = timeoutRecord := by
  induction fuel generalizing elapsed with
  | zero => rfl
  | succ n ih => simp [pollLoop, futureDone, ih]

theorem pollLoop_resolved (k : Nat) (d : Decision) (hk : k ≤ timeout_duration) :
    ∀ fuel elapsed, elapsed ≤ k → k - elapsed < fuel → pollLoop (some k) d fuel elapsed = d := by
  intro fuel
  induction fuel with
  | zero => intro elapsed h1 h2; omega
  | succ n ih =>
    intro elapsed h1 h2
    by_cases hd : k ≤ elapsed
    · simp [pollLoop, futureDone, hd]
    · have hlate : ¬ timeout_duration < elapsed := by
        simp only [timeout_duration] at hk ⊢; omega
      simp only [pollLoop, futureDone, decide_eq_true_eq, hd, if_false, hlate]
      exact ih (elapsed + 1) (by omega) (by omega)

theorem bot_send_ok_of_resolved (k : Nat) (d : Decision) (reg : Registry)
    (issue_number : Int) (hk : k ≤ timeout_duration) :
    (bot_send_triage_request { channel_ok := true, send_ok := true, resolution := some (k, d) }
        reg issue_number).1 = .ok d := by
  simp [bot_send_triage_request,
    pollLoop_resolved k d hk 4000 0 (Nat.zero_le k)
      (by simp only [timeout_duration] at hk; omega)]

theorem manager_send_ok_of_resolved (k : Nat) (d : Decision) (reg : Registry)
    (issue_number : Int) (hk : k ≤ timeout_duration) :
    (manager_send_triage_request
        { webhook_configured := true, bot_import_ok := true, webhook_post_ok := true,
          bot := { channel_ok := true, send_ok := true, resolution := some (k, d) } }
        reg issue_number).1 = .ok d := by
  have h := bot_send_ok_of_resolved k d reg issue_number hk
  simp only [manager_send_triage_request, Bool.not_true, Bool.false_eq_true, if_false, if_true]
  rcases hb : bot_send_triage_request
      { channel_ok := true, send_ok := true, resolution := some (k, d) } reg issue_number
    with ⟨res, regOut⟩
  rw [hb] at h
  simp at h
  subst h
  simp

theorem manager_send_ok_of_timeout (reg : Registry) (issue_number : Int) :
    (manager_send_triage_request
        { webhook_configured := true, bot_import_ok := true, webhook_post_ok := true,
          bot := { channel_ok := true, send_ok := true, resolution := none } }
        reg issue_number).1 = .ok timeoutRecord := by
  have h : (bot_send_triage_request { channel_ok := true, send_ok := true, resolution := none }
      reg issue_number).1 = .ok timeoutRecord := by
    simp [bot_send_triage_request, pollLoop_never_resolved]
  simp only [manager_send_triage_request, Bool.not_true, Bool.false_eq_true, if_false, if_true]
  rcases hb : bot_send_triage_request { channel_ok := true, send_ok := true, resolution := none }
      reg issue_number
    with ⟨res, regOut⟩
  rw [hb] at h
  simp at h
  subst h
  simp

theorem resolveDecision_noop_of_resolved (reg : Registry) (key : String) (d0 d : Decision)
    (h : Registry.lookup reg key = some (some d0)) :
    resolveDecision reg key d = reg := by
  simp [resolveDecision, h]

theorem resolveDecision_sets (reg : Registry) (key : String) (d : Decision)
    (h : Registry.lookup reg key = some none) :
    Registry.lookup (resolveDecision reg key d) key = some (some d) := by
  simp [resolveDecision, h, Registry.lookup_setKey_self]

theorem foldl_resolve_preserves (key : String) (d0 : Decision) (ds : List Decision) :
    ∀ reg : Registry, Registry.lookup reg key = some (some d0) →
      Registry.lookup (List.foldl (fun r x => resolveDecision r key x) reg ds) key
        = some (some d0) := by
  induction ds with
  | nil => intro reg h; simpa using h
  | cons x xs ih =>
    intro reg h
    simp only [List.foldl_cons]
    rw [resolveDecision_noop_of_resolved reg key d0 x h]
    exact ih reg h

theorem perform_ai_analysis_actions (ai : AnalysisOracle) (s : TriageState) :
    (perform_ai_analysis ai s).actions_executed = s.actions_executed := by
  rcases hc : ai.classify_severity s.issue_title s.issue_body with e | sev
  · simp [perform_ai_analysis, hc]
  · rcases hs : ai.summarize_issue s.issue_title s.issue_body with e | summ <;>
      simp [perform_ai_analysis, hc, hs]

theorem perform_duplicate_detection_actions (dup : DuplicateOracle) (s : TriageState) :
    (perform_duplicate_detection dup s).actions_executed = s.actions_executed := by
  rcases hf : dup.find_duplicate s.issue_title s.issue_body ((85 : Rat)/100) with e | p
  · simp [perform_duplicate_detection, hf]
  · obtain ⟨oid, osc⟩ := p
    rcases oid with _ | id
    · rcases osc with _ | sc <;> simp [perform_duplicate_detection, hf]
    · rcases osc with _ | sc
      · simp [perform_duplicate_detection, hf]
      · by_cases hc : id ≠ 0 ∧ sc ≠ 0 <;> simp [perform_duplicate_detection, hf, hc]

theorem perform_ai_analysis_shape (ai : AnalysisOracle) (s : TriageState) :
    ∃ sev summ, perform_ai_analysis ai s = { s with severity := sev, ai_summary := summ } := by
  rcases hc : ai.classify_severity s.issue_title s.issue_body with e | sev
  · exact ⟨some "Medium", some ("Issue: " ++ s.issue_title), by simp [perform_ai_analysis, hc]⟩
  · rcases hs : ai.summarize_issue s.issue_title s.issue_body with e | summ
    · exact ⟨some "Medium", some ("Issue: " ++ s.issue_title),
        by simp [perform_ai_analysis, hc, hs]⟩
    · exact ⟨some sev, some summ, by simp [perform_ai_analysis, hc, hs]⟩

theorem duplicate_detection_sets (dup : DuplicateOracle) (s : TriageState) (id : Int)
    (score : Rat)
    (hfind : dup.find_duplicate s.issue_title s.issue_body ((85 : Rat)/100)
      = .ok (some id, some score))
    (hid : id ≠ 0) (hs0 : score ≠ 0) :
    perform_duplicate_detection dup s
      = { s with is_duplicate := true
                 similarity_score := some score
                 duplicate_issue_id := some id
                 proposed_comment := some (draft_duplicate_comment id score) } := by
  simp [perform_duplicate_detection, hfind, hid, hs0]

theorem duplicate_detection_no_match (dup : DuplicateOracle) (s : TriageState)
    (hfind : dup.find_duplicate s.issue_title s.issue_body ((85 : Rat)/100) = .ok (none, none)) :
    perform_duplicate_detection dup s = s := by
  simp [perform_duplicate_detection, hfind]

theorem triage_ok_shape (o : Oracles) (reg : Registry) (issue : IssueData) (d : Decision)
    (hman : (manager_send_triage_request o.channel reg
        (perform_duplicate_detection o.dup
          (perform_ai_analysis o.ai (TriageState.init issue))).issue_id).1 = .ok d) :
    (triage_new_issue o reg issue).1.success = true
    ∧ (triage_new_issue o reg issue).1.actions_executed
        = (execute_decision o.gh d
            { perform_duplicate_detection o.dup
                (perform_ai_analysis o.ai (TriageState.init issue)) with
              human_decision := some d }).1.actions_executed
    ∧ (triage_new_issue o reg issue).2.1
        = (execute_decision o.gh d
            { perform_duplicate_detection o.dup
                (perform_ai_analysis o.ai (TriageState.init issue)) with
              human_decision := some d }).2 := by
  rcases hb : manager_send_triage_request o.channel reg
      (perform_duplicate_detection o.dup
        (perform_ai_analysis o.ai (TriageState.init issue))).issue_id
    with ⟨res, regOut⟩
  rw [hb] at hman
  simp only at hman
  subst hman
  refine ⟨?_, ?_, ?_⟩ <;> simp [triage_new_issue, hb]

theorem execute_decision_unknown_kind (gh : StoreOracle) (d : Decision) (s : TriageState)
    (h1 : d.decision ≠ "approve") (h2 : d.decision ≠ "reject")
    (h3 : d.decision ≠ "timeout") :
    execute_decision gh d s = (s, []) := by
  simp [execute_decision, h1, h2, h3]

/-! ## Claim theorems -/

/-- C2: a pending-decision slot is written at most once — once any writer has
set the slot's result, every later resolve attempt is a no-op that does not
change the stored record (first conjunct: a resolve on an already-resolved
slot leaves the registry untouched; second conjunct: after any race of
writers `d :: ds` on an unresolved slot, the stored record is the first
writer's), and the broker wait returns the first-arriving record, never a
later one (third conjunct: a run whose slot is resolved with `d` within the
timeout window returns exactly `d`). -/
theorem C2_decision_slot_single_resolution (reg : Registry) (key : String)
    (d late : Decision) (ds : List Decision)
    (hslot : Registry.lookup reg key = some none) :
    (∀ (reg2 : Registry) (d0 : Decision), Registry.lookup reg2 key = some (some d0) →
      resolveDecision reg2 key late = reg2)
    ∧ Registry.lookup (List.foldl (fun r x => resolveDecision r key x) reg (d :: ds)) key
        = some (some d)
    ∧ (∀ (reg0 : Registry) (issue_number : Int) (k : Nat), k ≤ timeout_duration →
        (bot_send_triage_request
            { channel_ok := true, send_ok := true, resolution := some (k, d) }
            reg0 issue_number).1 = .ok d) := by
  refine ⟨fun reg2 d0 h => resolveDecision_noop_of_resolved reg2 key d0 late h, ?_, ?_⟩
  · simp only [List.foldl_cons]
    exact foldl_resolve_preserves key d ds (resolveDecision reg key d)
      (resolveDecision_sets reg key d hslot)
  · intro reg0 issue_number k hk
    exact bot_send_ok_of_resolved k d reg0 issue_number hk

/-- Witness for C2 at a concrete slot: an approve record arrives first, a
timeout record races in later; the stored record stays the approve one and
the broker returns it. -/
theorem C2_decision_slot_single_resolution_witness :
    Registry.lookup
      (List.foldl (fun r x => resolveDecision r "issue_7" x)
        [("issue_7", (none : Option Decision))]
        [{ decision := "approve" }, timeoutRecord]) "issue_7"
      = some (some { decision := "approve", data := {} })
    ∧ (bot_send_triage_request
        { channel_ok := true, send_ok := true,
          resolution := some (5, { decision := "approve" }) }
        [] 7).1 = .ok { decision := "approve", data := {} } :=
  ⟨(C2_decision_slot_single_resolution [("issue_7", none)] "issue_7"
      { decision := "approve" } timeoutRecord [timeoutRecord] rfl).2.1,
   (C2_decision_slot_single_resolution [("issue_7", none)] "issue_7"
      { decision := "approve" } timeoutRecord [timeoutRecord] rfl).2.2
      [] 7 5 (by decide)⟩

/-- C3 counterexample: the registration step of the decision broker
(`discord_bot.py` 355-356) performs an unchecked dict assignment.  On a
registry that already holds a pending decision for `issue_5`, a second
registration does not fail with any duplicate-key condition — the broker run
proceeds normally — and the first registration's slot is silently replaced by
a fresh unresolved one. -/
theorem C3_second_registration_counterexample :
    register_pending_decision [("issue_5", some { decision := "approve" })] 5
      = [("issue_5", (none : Option Decision))]
    ∧ (bot_send_triage_request { channel_ok := true, send_ok := true, resolution := none }
        [("issue_5", some { decision := "approve" })] 5).1
      = .ok timeoutRecord := by
  constructor
  · rfl
  · simp [bot_send_triage_request, pollLoop_never_resolved]

/-- C3 amended: a second registration of a pending decision for an issue id
that already has one does not fail — the registration unconditionally
overwrites the registry entry, silently replacing the existing slot with a
fresh unresolved one (so no duplicate-key condition exists in the code). -/
theorem C3_second_registration_silently_replaces (reg : Registry) (issue_number : Int) :
    Registry.lookup (register_pending_decision reg issue_number) (decisionKey issue_number)
      = some none :=
  Registry.lookup_setKey_self reg (decisionKey issue_number) none

/-- C4: if no resolution arrives before the timeout window elapses, the
broker wait returns the synthesized timeout record (first conjunct), and on
every exit — resolution, timeout, or error — the pending-decision registry no
longer contains an entry for the issue id, because the cleanup runs in a
`finally` block (second conjunct, with no assumption on the scenario). -/
theorem C4_timeout_record_and_unconditional_cleanup (sc : BotScenario) (reg : Registry)
    (issue_number : Int) :
    (sc.channel_ok = true → sc.send_ok = true → sc.resolution = none →
      (bot_send_triage_request sc reg issue_number).1 = .ok timeoutRecord)
    ∧ Registry.containsKey (bot_send_triage_request sc reg issue_number).2
        (decisionKey issue_number) = false := by
  constructor
  · intro h1 h2 h3
    simp [bot_send_triage_request, h1, h2, h3, pollLoop_never_resolved]
  · rcases sc with ⟨co, so, res⟩
    rcases co <;> rcases so <;> rcases res with _ | ⟨k, d⟩ <;>
      simp [bot_send_triage_request, Registry.containsKey_eraseKey]

/-- Witness for C4 at a concrete scenario: channel and send succeed, nobody
resolves; the run returns the timeout record and the registry entry is
gone. -/
theorem C4_timeout_record_and_unconditional_cleanup_witness :
    (bot_send_triage_request { channel_ok := true, send_ok := true, resolution := none }
        [("issue_9", (none : Option Decision))] 9).1 = .ok timeoutRecord
    ∧ Registry.containsKey
        (bot_send_triage_request { channel_ok := true, send_ok := true, resolution := none }
          [("issue_9", (none : Option Decision))] 9).2 (decisionKey 9) = false :=
  ⟨(C4_timeout_record_and_unconditional_cleanup
      { channel_ok := true, send_ok := true, resolution := none }
      [("issue_9", none)] 9).1 rfl rfl rfl,
   (C4_timeout_record_and_unconditional_cleanup
      { channel_ok := true, send_ok := true, resolution := none }
      [("issue_9", none)] 9).2⟩

/-- C5: for a duplicate state with an approve decision entering the execution
phase with an empty action map, the final action map has exactly the keys
`comment_posted`, `duplicate_label_added`, `issue_closed`, each bound to the
success boolean of its own RecordStore call — the oracle is arbitrary, so any
subset of the three calls may fail without blocking the others — and the
call trace shows all three calls attempted in order. -/
theorem C5_duplicate_approve_action_map (gh : StoreOracle) (d : Decision) (s : TriageState)
    (hdup : s.is_duplicate = true) (hdec : d.decision = "approve")
    (hempty : s.actions_executed = []) :
    (execute_decision gh d s).1.actions_executed
      = [("comment_posted", gh.post_comment s.issue_id (getOr d.data.comment s.proposed_comment)),
         ("duplicate_label_added", gh.add_label s.issue_id (some "duplicate")),
         ("issue_closed", gh.close_issue s.issue_id "duplicate")]
    ∧ (execute_decision gh d s).2
      = [StoreCall.postComment s.issue_id (getOr d.data.comment s.proposed_comment),
         StoreCall.addLabel s.issue_id (some "duplicate"),
         StoreCall.closeIssue s.issue_id "duplicate"]
    ∧ (∀ (o : Oracles) (reg : Registry) (issue : IssueData) (k : Nat)
         (payload : DecisionData) (id : Int) (score : Rat),
        o.channel = { webhook_configured := true, bot_import_ok := true,
                      webhook_post_ok := true,
                      bot := { channel_ok := true, send_ok := true,
                               resolution := some (k, { decision := "approve",
                                                        data := payload }) } } →
        k ≤ timeout_duration →
        o.dup.find_duplicate (TriageState.init issue).issue_title
            (TriageState.init issue).issue_body ((85 : Rat)/100)
          = .ok (some id, some score) →
        id ≠ 0 → score ≠ 0 →
        (triage_new_issue o reg issue).1.success = true
        ∧ (triage_new_issue o reg issue).1.actions_executed
          = [("comment_posted", o.gh.post_comment (TriageState.init issue).issue_id
                (getOr payload.comment (some (draft_duplicate_comment id score)))),
             ("duplicate_label_added", o.gh.add_label (TriageState.init issue).issue_id
                (some "duplicate")),
             ("issue_closed", o.gh.close_issue (TriageState.init issue).issue_id "duplicate")]
        ∧ (triage_new_issue o reg issue).2.1
          = [StoreCall.postComment (TriageState.init issue).issue_id
               (getOr payload.comment (some (draft_duplicate_comment id score))),
             StoreCall.addLabel (TriageState.init issue).issue_id (some "duplicate"),
             StoreCall.closeIssue (TriageState.init issue).issue_id "duplicate"]) := by
  refine ⟨?_, ?_, ?_⟩
  · simp [execute_decision, hdec, hdup, hempty, setAction]
  · simp [execute_decision, hdec, hdup, hempty, setAction]
  · intro o reg issue k payload id score hch hk hfind hid hs0
    obtain ⟨sev, summ, hai⟩ := perform_ai_analysis_shape o.ai (TriageState.init issue)
    have hfind2 : o.dup.find_duplicate
        (perform_ai_analysis o.ai (TriageState.init issue)).issue_title
        (perform_ai_analysis o.ai (TriageState.init issue)).issue_body ((85 : Rat)/100)
        = .ok (some id, some score) := by
      rw [hai]; simpa using hfind
    have hs2 := duplicate_detection_sets o.dup
      (perform_ai_analysis o.ai (TriageState.init issue)) id score hfind2 hid hs0
    have hman : (manager_send_triage_request o.channel reg
        (perform_duplicate_detection o.dup
          (perform_ai_analysis o.ai (TriageState.init issue))).issue_id).1
        = .ok { decision := "approve", data := payload } := by
      rw [hch]
      exact manager_send_ok_of_resolved k { decision := "approve", data := payload } reg _ hk
    obtain ⟨hsucc, hacts, hcalls⟩ := triage_ok_shape o reg issue _ hman
    refine ⟨hsucc, ?_, ?_⟩
    · rw [hacts, hs2, hai]
      simp [execute_decision, setAction, TriageState.init]
    · rw [hcalls, hs2, hai]
      simp [execute_decision, TriageState.init]

/-- Witness for C5: a concrete duplicate state and a store oracle that fails
the comment but succeeds on label and close; all three keys are present with
their independent results, and a concrete end-to-end duplicate-approve run
shows the same final action map. -/
theorem C5_duplicate_approve_action_map_witness :
    (execute_decision
        { post_comment := fun _ _ => false, add_label := fun _ _ => true,
          close_issue := fun _ _ => true }
        { decision := "approve" }
        { issue_id := 102, issue_title := "Login broken", issue_body := "b",
          issue_url := "", repository := "acme/app", is_duplicate := true,
          proposed_comment := some "dup note" }).1.actions_executed
      = [("comment_posted", false), ("duplicate_label_added", true), ("issue_closed", true)]
    ∧ (execute_decision
        { post_comment := fun _ _ => false, add_label := fun _ _ => true,
          close_issue := fun _ _ => true }
        { decision := "approve" }
        { issue_id := 102, issue_title := "Login broken", issue_body := "b",
          issue_url := "", repository := "acme/app", is_duplicate := true,
          proposed_comment := some "dup note" }).2
      = [StoreCall.postComment 102 (some "dup note"),
         StoreCall.addLabel 102 (some "duplicate"),
         StoreCall.closeIssue 102 "duplicate"]
    ∧ (triage_new_issue
        { ai := { classify_severity := fun _ _ => .ok "High",
                  summarize_issue := fun _ _ => .ok "summary" }
          dup := { find_duplicate := fun _ _ _ => .ok (some 42, some (91/100)) }
          channel := { webhook_configured := true, bot_import_ok := true,
                       webhook_post_ok := true,
                       bot := { channel_ok := true, send_ok := true,
                                resolution := some (2, { decision := "approve" }) } }
          gh := { post_comment := fun _ _ => false, add_label := fun _ _ => true,
                  close_issue := fun _ _ => true }
          completion_sent := true }
        [] { number := some 102, title := some "Login broken",
             body := some "b" }).1.actions_executed
      = [("comment_posted", false), ("duplicate_label_added", true), ("issue_closed", true)] :=
  ⟨(C5_duplicate_approve_action_map
      { post_comment := fun _ _ => false, add_label := fun _ _ => true,
        close_issue := fun _ _ => true }
      { decision := "approve" }
      { issue_id := 102, issue_title := "Login broken", issue_body := "b",
        issue_url := "", repository := "acme/app", is_duplicate := true,
        proposed_comment := some "dup note" }
      rfl rfl rfl).1,
   (C5_duplicate_approve_action_map
      { post_comment := fun _ _ => false, add_label := fun _ _ => true,
        close_issue := fun _ _ => true }
      { decision := "approve" }
      { issue_id := 102, issue_title := "Login broken", issue_body := "b",
        issue_url := "", repository := "acme/app", is_duplicate := true,
        proposed_comment := some "dup note" }
      rfl rfl rfl).2.1,
   ((C5_duplicate_approve_action_map
      { post_comment := fun _ _ => false, add_label := fun _ _ => true,
        close_issue := fun _ _ => true }
      { decision := "approve" }
      { issue_id := 102, issue_title := "Login broken", issue_body := "b",
        issue_url := "", repository := "acme/app", is_duplicate := true,
        proposed_comment := some "dup note" }
      rfl rfl rfl).2.2
      { ai := { classify_severity := fun _ _ => .ok "High",
                summarize_issue := fun _ _ => .ok "summary" }
        dup := { find_duplicate := fun _ _ _ => .ok (some 42, some (91/100)) }
        channel := { webhook_configured := true, bot_import_ok := true,
                     webhook_post_ok := true,
                     bot := { channel_ok := true, send_ok := true,
                              resolution := some (2, { decision := "approve" }) } }
        gh := { post_comment := fun _ _ => false, add_label := fun _ _ => true,
                close_issue := fun _ _ => true }
        completion_sent := true }
      [] { number := some 102, title := some "Login broken", body := some "b" }
      2 {} 42 (91/100) rfl (by decide) rfl (by decide) (by norm_num)).2.1⟩

/-- C6: for a non-duplicate state with an approve decision entering the
execution phase with an empty action map, the final action map has exactly
the keys `severity_label_added`, `summary_posted`, `added_to_knowledge_base`
(the first two bound to their own calls' results, the third unconditionally
`true` because `WeaviateManager.add_issue` never raises), and the call trace
ends with the DuplicateIndex registration of the confirmed-unique report. -/
theorem C6_nonduplicate_approve_action_map (gh : StoreOracle) (d : Decision) (s : TriageState)
    (hdup : s.is_duplicate = false) (hdec : d.decision = "approve")
    (hempty : s.actions_executed = []) :
    (execute_decision gh d s).1.actions_executed
      = [("severity_label_added", gh.add_label s.issue_id (getOr d.data.severity s.severity)),
         ("summary_posted", gh.post_comment s.issue_id
            (some (summaryComment (getOr d.data.severity s.severity)
                                  (getOr d.data.summary s.ai_summary)))),
         ("added_to_knowledge_base", true)]
    ∧ (execute_decision gh d s).2
      = [StoreCall.addLabel s.issue_id (getOr d.data.severity s.severity),
         StoreCall.postComment s.issue_id
           (some (summaryComment (getOr d.data.severity s.severity)
                                 (getOr d.data.summary s.ai_summary))),
         StoreCall.registerKb s.issue_id s.issue_title s.issue_body]
    ∧ (∀ (o : Oracles) (reg : Registry) (issue : IssueData) (k : Nat)
         (payload : DecisionData),
        o.channel = { webhook_configured := true, bot_import_ok := true,
                      webhook_post_ok := true,
                      bot := { channel_ok := true, send_ok := true,
                               resolution := some (k, { decision := "approve",
                                                        data := payload }) } } →
        k ≤ timeout_duration →
        o.dup.find_duplicate (TriageState.init issue).issue_title
            (TriageState.init issue).issue_body ((85 : Rat)/100) = .ok (none, none) →
        (triage_new_issue o reg issue).1.success = true
        ∧ (triage_new_issue o reg issue).1.actions_executed
          = [("severity_label_added", o.gh.add_label (TriageState.init issue).issue_id
                (getOr payload.severity
                  (perform_ai_analysis o.ai (TriageState.init issue)).severity)),
             ("summary_posted", o.gh.post_comment (TriageState.init issue).issue_id
                (some (summaryComment
                  (getOr payload.severity
                    (perform_ai_analysis o.ai (TriageState.init issue)).severity)
                  (getOr payload.summary
                    (perform_ai_analysis o.ai (TriageState.init issue)).ai_summary)))),
             ("added_to_knowledge_base", true)]
        ∧ (triage_new_issue o reg issue).2.1
          = [StoreCall.addLabel (TriageState.init issue).issue_id
               (getOr payload.severity
                 (perform_ai_analysis o.ai (TriageState.init issue)).severity),
             StoreCall.postComment (TriageState.init issue).issue_id
               (some (summaryComment
                 (getOr payload.severity
                   (perform_ai_analysis o.ai (TriageState.init issue)).severity)
                 (getOr payload.summary
                   (perform_ai_analysis o.ai (TriageState.init issue)).ai_summary))),
             StoreCall.registerKb (TriageState.init issue).issue_id
               (TriageState.init issue).issue_title (TriageState.init issue).issue_body]) := by
  refine ⟨?_, ?_, ?_⟩
  · simp [execute_decision, hdec, hdup, hempty, setAction]
  · simp [execute_decision, hdec, hdup, hempty, setAction]
  · intro o reg issue k payload hch hk hfind
    obtain ⟨sev, summ, hai⟩ := perform_ai_analysis_shape o.ai (TriageState.init issue)
    have hfind2 : o.dup.find_duplicate
        (perform_ai_analysis o.ai (TriageState.init issue)).issue_title
        (perform_ai_analysis o.ai (TriageState.init issue)).issue_body ((85 : Rat)/100)
        = .ok (none, none) := by
      rw [hai]; simpa using hfind
    have hs2 := duplicate_detection_no_match o.dup
      (perform_ai_analysis o.ai (TriageState.init issue)) hfind2
    have hman : (manager_send_triage_request o.channel reg
        (perform_duplicate_detection o.dup
          (perform_ai_analysis o.ai (TriageState.init issue))).issue_id).1
        = .ok { decision := "approve", data := payload } := by
      rw [hch]
      exact manager_send_ok_of_resolved k { decision := "approve", data := payload } reg _ hk
    obtain ⟨hsucc, hacts, hcalls⟩ := triage_ok_shape o reg issue _ hman
    refine ⟨hsucc, ?_, ?_⟩
    · rw [hacts, hs2, hai]
      simp [execute_decision, setAction, TriageState.init]
    · rw [hcalls, hs2, hai]
      simp [execute_decision, TriageState.init]

/-- Witness for C6: a concrete non-duplicate state with a store oracle that
fails the comment post; the three keys are present, knowledge-base
registration recorded true, and the trace registers the report. -/
theorem C6_nonduplicate_approve_action_map_witness :
    (execute_decision
        { post_comment := fun _ _ => false, add_label := fun _ _ => true,
          close_issue := fun _ _ => true }
        { decision := "approve" }
        { issue_id := 101, issue_title := "Login broken", issue_body := "b",
          issue_url := "", repository := "acme/app", severity := some "High",
          ai_summary := some "Users cannot log in." }).1.actions_executed
      = [("severity_label_added", true),
         ("summary_posted", false),
         ("added_to_knowledge_base", true)]
    ∧ (execute_decision
        { post_comment := fun _ _ => false, add_label := fun _ _ => true,
          close_issue := fun _ _ => true }
        { decision := "approve" }
        { issue_id := 101, issue_title := "Login broken", issue_body := "b",
          issue_url := "", repository := "acme/app", severity := some "High",
          ai_summary := some "Users cannot log in." }).2
      = [StoreCall.addLabel 101 (some "High"),
         StoreCall.postComment 101
           (some (summaryComment (some "High") (some "Users cannot log in."))),
         StoreCall.registerKb 101 "Login broken" "b"]
    ∧ (triage_new_issue
        { ai := { classify_severity := fun _ _ => .ok "High",
                  summarize_issue := fun _ _ => .ok "Users cannot log in." }
          dup := { find_duplicate := fun _ _ _ => .ok (none, none) }
          channel := { webhook_configured := true, bot_import_ok := true,
                       webhook_post_ok := true,
                       bot := { channel_ok := true, send_ok := true,
                                resolution := some (1, { decision := "approve" }) } }
          gh := { post_comment := fun _ _ => false, add_label := fun _ _ => true,
                  close_issue := fun _ _ => true }
          completion_sent := true }
        [] { number := some 101, title := some "Login broken",
             body := some "b" }).1.actions_executed
      = [("severity_label_added", true), ("summary_posted", false),
         ("added_to_knowledge_base", true)] :=
  ⟨(C6_nonduplicate_approve_action_map
      { post_comment := fun _ _ => false, add_label := fun _ _ => true,
        close_issue := fun _ _ => true }
      { decision := "approve" }
      { issue_id := 101, issue_title := "Login broken", issue_body := "b",
        issue_url := "", repository := "acme/app", severity := some "High",
        ai_summary := some "Users cannot log in." }
      rfl rfl rfl).1,
   (C6_nonduplicate_approve_action_map
      { post_comment := fun _ _ => false, add_label := fun _ _ => true,
        close_issue := fun _ _ => true }
      { decision := "approve" }
      { issue_id := 101, issue_title := "Login broken", issue_body := "b",
        issue_url := "", repository := "acme/app", severity := some "High",
        ai_summary := some "Users cannot log in." }
      rfl rfl rfl).2.1,
   ((C6_nonduplicate_approve_action_map
      { post_comment := fun _ _ => false, add_label := fun _ _ => true,
        close_issue := fun _ _ => true }
      { decision := "approve" }
      { issue_id := 101, issue_title := "Login broken", issue_body := "b",
        issue_url := "", repository := "acme/app", severity := some "High",
        ai_summary := some "Users cannot log in." }
      rfl rfl rfl).2.2
      { ai := { classify_severity := fun _ _ => .ok "High",
                summarize_issue := fun _ _ => .ok "Users cannot log in." }
        dup := { find_duplicate := fun _ _ _ => .ok (none, none) }
        channel := { webhook_configured := true, bot_import_ok := true,
                     webhook_post_ok := true,
                     bot := { channel_ok := true, send_ok := true,
                              resolution := some (1, { decision := "approve" }) } }
        gh := { post_comment := fun _ _ => false, add_label := fun _ _ => true,
                close_issue := fun _ _ => true }
        completion_sent := true }
      [] { number := some 101, title := some "Login broken", body := some "b" }
      1 {} rfl (by decide) rfl).2.1⟩

/-- C7: a reject decision entering the execution phase with an empty action
map yields exactly `rejected ↦ true` with no collaborator call, and a timeout
decision yields exactly `timed_out ↦ true` with no collaborator call. -/
theorem C7_reject_timeout_no_store_calls (gh : StoreOracle) (d : Decision) (s : TriageState)
    (hempty : s.actions_executed = []) :
    (d.decision = "reject" →
      (execute_decision gh d s).1.actions_executed = [("rejected", true)]
      ∧ (execute_decision gh d s).2 = [])
    ∧ (d.decision = "timeout" →
      (execute_decision gh d s).1.actions_executed = [("timed_out", true)]
      ∧ (execute_decision gh d s).2 = [])
    ∧ (∀ (o : Oracles) (reg : Registry) (issue : IssueData) (k : Nat)
         (payload : DecisionData),
        o.channel = { webhook_configured := true, bot_import_ok := true,
                      webhook_post_ok := true,
                      bot := { channel_ok := true, send_ok := true,
                               resolution := some (k, { decision := "reject",
                                                        data := payload }) } } →
        k ≤ timeout_duration →
        (triage_new_issue o reg issue).1.success = true
        ∧ (triage_new_issue o reg issue).1.actions_executed = [("rejected", true)]
        ∧ (triage_new_issue o reg issue).2.1 = [])
    ∧ (∀ (o : Oracles) (reg : Registry) (issue : IssueData),
        o.channel = { webhook_configured := true, bot_import_ok := true,
                      webhook_post_ok := true,
                      bot := { channel_ok := true, send_ok := true, resolution := none } } →
        (triage_new_issue o reg issue).1.success = true
        ∧ (triage_new_issue o reg issue).1.actions_executed = [("timed_out", true)]
        ∧ (triage_new_issue o reg issue).2.1 = []) := by
  refine ⟨?_, ?_, ?_, ?_⟩
  · intro h
    constructor <;> simp [execute_decision, h, hempty, setAction]
  · intro h
    constructor <;> simp [execute_decision, h, hempty, setAction]
  · intro o reg issue k payload hch hk
    have hman : (manager_send_triage_request o.channel reg
        (perform_duplicate_detection o.dup
          (perform_ai_analysis o.ai (TriageState.init issue))).issue_id).1
        = .ok { decision := "reject", data := payload } := by
      rw [hch]
      exact manager_send_ok_of_resolved k { decision := "reject", data := payload } reg _ hk
    obtain ⟨hsucc, hacts, hcalls⟩ := triage_ok_shape o reg issue _ hman
    refine ⟨hsucc, ?_, ?_⟩
    · rw [hacts]
      simp [execute_decision, setAction, perform_ai_analysis_actions,
        perform_duplicate_detection_actions, TriageState.init]
    · rw [hcalls]
      simp [execute_decision]
  · intro o reg issue hch
    have hman : (manager_send_triage_request o.channel reg
        (perform_duplicate_detection o.dup
          (perform_ai_analysis o.ai (TriageState.init issue))).issue_id).1
        = .ok timeoutRecord := by
      rw [hch]
      exact manager_send_ok_of_timeout reg _
    obtain ⟨hsucc, hacts, hcalls⟩ := triage_ok_shape o reg issue _ hman
    refine ⟨hsucc, ?_, ?_⟩
    · rw [hacts]
      simp [execute_decision, timeoutRecord, setAction, perform_ai_analysis_actions,
        perform_duplicate_detection_actions, TriageState.init]
    · rw [hcalls]
      simp [execute_decision, timeoutRecord]

/-- Witness for C7 at a concrete state, oracle and the two decision kinds,
plus concrete end-to-end reject and timeout runs. -/
theorem C7_reject_timeout_no_store_calls_witness :
    ((execute_decision
        { post_comment := fun _ _ => true, add_label := fun _ _ => true,
          close_issue := fun _ _ => true }
        { decision := "reject" }
        { issue_id := 103, issue_title := "t", issue_body := "b",
          issue_url := "", repository := "r" }).1.actions_executed
      = [("rejected", true)]
    ∧ (execute_decision
        { post_comment := fun _ _ => true, add_label := fun _ _ => true,
          close_issue := fun _ _ => true }
        { decision := "reject" }
        { issue_id := 103, issue_title := "t", issue_body := "b",
          issue_url := "", repository := "r" }).2 = [])
    ∧ ((execute_decision
        { post_comment := fun _ _ => true, add_label := fun _ _ => true,
          close_issue := fun _ _ => true }
        timeoutRecord
        { issue_id := 103, issue_title := "t", issue_body := "b",
          issue_url := "", repository := "r" }).1.actions_executed
      = [("timed_out", true)]
    ∧ (execute_decision
        { post_comment := fun _ _ => true, add_label := fun _ _ => true,
          close_issue := fun _ _ => true }
        timeoutRecord
        { issue_id := 103, issue_title := "t", issue_body := "b",
          issue_url := "", repository := "r" }).2 = [])
    ∧ (triage_new_issue
        { ai := { classify_severity := fun _ _ => .ok "High",
                  summarize_issue := fun _ _ => .ok "s" }
          dup := { find_duplicate := fun _ _ _ => .ok (none, none) }
          channel := { webhook_configured := true, bot_import_ok := true,
                       webhook_post_ok := true,
                       bot := { channel_ok := true, send_ok := true,
                                resolution := some (4, { decision := "reject" }) } }
          gh := { post_comment := fun _ _ => true, add_label := fun _ _ => true,
                  close_issue := fun _ _ => true }
          completion_sent := true }
        [] { number := some 103, title := some "t", body := some "b" }).1.actions_executed
      = [("rejected", true)]
    ∧ (triage_new_issue
        { ai := { classify_severity := fun _ _ => .ok "High",
                  summarize_issue := fun _ _ => .ok "s" }
          dup := { find_duplicate := fun _ _ _ => .ok (none, none) }
          channel := { webhook_configured := true, bot_import_ok := true,
                       webhook_post_ok := true,
                       bot := { channel_ok := true, send_ok := true, resolution := none } }
          gh := { post_comment := fun _ _ => true, add_label := fun _ _ => true,
                  close_issue := fun _ _ => true }
          completion_sent := true }
        [] { number := some 103, title := some "t", body := some "b" }).1.actions_executed
      = [("timed_out", true)] :=
  ⟨(C7_reject_timeout_no_store_calls
      { post_comment := fun _ _ => true, add_label := fun _ _ => true,
        close_issue := fun _ _ => true }
      { decision := "reject" }
      { issue_id := 103, issue_title := "t", issue_body := "b",
        issue_url := "", repository := "r" } rfl).1 rfl,
   (C7_reject_timeout_no_store_calls
      { post_comment := fun _ _ => true, add_label := fun _ _ => true,
        close_issue := fun _ _ => true }
      timeoutRecord
      { issue_id := 103, issue_title := "t", issue_body := "b",
        issue_url := "", repository := "r" } rfl).2.1 rfl,
   ((C7_reject_timeout_no_store_calls
      { post_comment := fun _ _ => true, add_label := fun _ _ => true,
        close_issue := fun _ _ => true }
      { decision := "reject" }
      { issue_id := 103, issue_title := "t", issue_body := "b",
        issue_url := "", repository := "r" } rfl).2.2.1
      { ai := { classify_severity := fun _ _ => .ok "High",
                summarize_issue := fun _ _ => .ok "s" }
        dup := { find_duplicate := fun _ _ _ => .ok (none, none) }
        channel := { webhook_configured := true, bot_import_ok := true,
                     webhook_post_ok := true,
                     bot := { channel_ok := true, send_ok := true,
                              resolution := some (4, { decision := "reject" }) } }
        gh := { post_comment := fun _ _ => true, add_label := fun _ _ => true,
                close_issue := fun _ _ => true }
        completion_sent := true }
      [] { number := some 103, title := some "t", body := some "b" }
      4 {} rfl (by decide)).2.1,
   ((C7_reject_timeout_no_store_calls
      { post_comment := fun _ _ => true, add_label := fun _ _ => true,
        close_issue := fun _ _ => true }
      { decision := "reject" }
      { issue_id := 103, issue_title := "t", issue_body := "b",
        issue_url := "", repository := "r" } rfl).2.2.2
      { ai := { classify_severity := fun _ _ => .ok "High",
                summarize_issue := fun _ _ => .ok "s" }
        dup := { find_duplicate := fun _ _ _ => .ok (none, none) }
        channel := { webhook_configured := true, bot_import_ok := true,
                     webhook_post_ok := true,
                     bot := { channel_ok := true, send_ok := true, resolution := none } }
        gh := { post_comment := fun _ _ => true, add_label := fun _ _ => true,
                close_issue := fun _ _ => true }
        completion_sent := true }
      [] { number := some 103, title := some "t", body := some "b" }
      rfl).2.1⟩

/-- C8 counterexample: the duplicate-detection phase guards its state update
with the Python truthiness test `if duplicate_id and similarity_score:`.  If
the duplicate index returns the match identifier `0` together with a score of
`0.9` — at or above the `0.85` threshold — no duplicate field is set: the
claim's "sets is_duplicate true together with the similarity score" fails at
this input. -/
theorem C8_zero_identifier_counterexample :
    (85 : Rat)/100 ≤ 9/10
    ∧ (perform_duplicate_detection
        { find_duplicate := fun _ _ _ => .ok (some 0, some (9/10)) }
        (TriageState.init { number := some 103, title := some "crash on start" })).is_duplicate
      = false
    ∧ (perform_duplicate_detection
        { find_duplicate := fun _ _ _ => .ok (some 0, some (9/10)) }
        (TriageState.init { number := some 103, title := some "crash on start" })).similarity_score
      = none := by
  refine ⟨by norm_num, ?_, ?_⟩ <;> decide

/-- C8 amended: if the duplicate index returns a match identifier and a score
at or above the threshold AND the identifier is nonzero (the code tests
Python truthiness, so identifier `0` is treated as no match), the phase sets
`is_duplicate`, the similarity score, the duplicate target and the drafted
duplicate-notice comment; and on a fresh state the similarity score is set
if and only if `is_duplicate` is true and a match was found. -/
theorem C8_duplicate_fields_and_score_iff (dup : DuplicateOracle) (s : TriageState)
    (hscore : s.similarity_score = none) (hdup : s.is_duplicate = false) :
    (∀ (id : Int) (score : Rat),
      dup.find_duplicate s.issue_title s.issue_body ((85 : Rat)/100)
        = .ok (some id, some score) →
      id ≠ 0 → (85 : Rat)/100 ≤ score →
      (perform_duplicate_detection dup s).is_duplicate = true
      ∧ (perform_duplicate_detection dup s).similarity_score = some score
      ∧ (perform_duplicate_detection dup s).duplicate_issue_id = some id
      ∧ (perform_duplicate_detection dup s).proposed_comment
          = some (draft_duplicate_comment id score))
    ∧ ((perform_duplicate_detection dup s).similarity_score.isSome = true ↔
        (perform_duplicate_detection dup s).is_duplicate = true
        ∧ ∃ (id : Int) (score : Rat),
            dup.find_duplicate s.issue_title s.issue_body ((85 : Rat)/100)
              = .ok (some id, some score)) := by
  constructor
  · intro id score hfind hid hthr
    have hs0 : score ≠ 0 := ne_of_gt (lt_of_lt_of_le (by norm_num) hthr)
    simp [perform_duplicate_detection, hfind, hid, hs0]
  · rcases hfind : dup.find_duplicate s.issue_title s.issue_body ((85 : Rat)/100)
      with e | ⟨oid, osc⟩
    · simp [perform_duplicate_detection, hfind, hscore]
    · rcases oid with _ | id
      · rcases osc with _ | sc <;>
          simp [perform_duplicate_detection, hfind, hscore, hdup]
      · rcases osc with _ | sc
        · simp [perform_duplicate_detection, hfind, hscore, hdup]
        · by_cases hc : id ≠ 0 ∧ sc ≠ 0
          · simp [perform_duplicate_detection, hfind, hc]
          · simp [perform_duplicate_detection, hfind, hc, hscore, hdup]

/-- Witness for C8 at a concrete fresh state and an index returning match
`#42` with score `0.91`. -/
theorem C8_duplicate_fields_and_score_iff_witness :
    (perform_duplicate_detection
        { find_duplicate := fun _ _ _ => .ok (some 42, some (91/100)) }
        (TriageState.init { number := some 102, title := some "Login broken" })).is_duplicate
      = true
    ∧ (perform_duplicate_detection
        { find_duplicate := fun _ _ _ => .ok (some 42, some (91/100)) }
        (TriageState.init { number := some 102, title := some "Login broken" })).similarity_score
      = some (91/100)
    ∧ (perform_duplicate_detection
        { find_duplicate := fun _ _ _ => .ok (some 42, some (91/100)) }
        (TriageState.init { number := some 102, title := some "Login broken" })).duplicate_issue_id
      = some 42
    ∧ (perform_duplicate_detection
        { find_duplicate := fun _ _ _ => .ok (some 42, some (91/100)) }
        (TriageState.init { number := some 102, title := some "Login broken" })).proposed_comment
      = some (draft_duplicate_comment 42 (91/100)) :=
  (C8_duplicate_fields_and_score_iff
      { find_duplicate := fun _ _ _ => .ok (some 42, some (91/100)) }
      (TriageState.init { number := some 102, title := some "Login broken" })
      rfl rfl).1 42 (91/100) rfl (by decide) (by norm_num)

/-- C9: if the analysis provider raises during severity classification, or
classifies successfully and then raises during summarization, the analysis
phase swallows the failure and ends with severity `"Medium"` and summary
`"Issue: {title}"`; and in every case severity and summary are set after the
phase. -/
theorem C9_analysis_fallback (ai : AnalysisOracle) (s : TriageState) :
    (((∃ e, ai.classify_severity s.issue_title s.issue_body = .error e)
       ∨ (∃ sev e, ai.classify_severity s.issue_title s.issue_body = .ok sev
            ∧ ai.summarize_issue s.issue_title s.issue_body = .error e)) →
      (perform_ai_analysis ai s).severity = some "Medium"
      ∧ (perform_ai_analysis ai s).ai_summary = some ("Issue: " ++ s.issue_title))
    ∧ (perform_ai_analysis ai s).severity.isSome = true
    ∧ (perform_ai_analysis ai s).ai_summary.isSome = true := by
  refine ⟨?_, ?_⟩
  · rintro (⟨e, he⟩ | ⟨sev, e, hc, hs⟩)
    · simp [perform_ai_analysis, he]
    · simp [perform_ai_analysis, hc, hs]
  · rcases hc : ai.classify_severity s.issue_title s.issue_body with e | sev
    · simp [perform_ai_analysis, hc]
    · rcases hs : ai.summarize_issue s.issue_title s.issue_body with e | summ <;>
        simp [perform_ai_analysis, hc, hs]

/-- Witness for C9: classification succeeds with `"High"`, summarization
raises; the phase falls back to `Medium` and the templated summary. -/
theorem C9_analysis_fallback_witness :
    (perform_ai_analysis
        { classify_severity := fun _ _ => .ok "High",
          summarize_issue := fun _ _ => .error "Gemini unavailable" }
        { issue_id := 104, issue_title := "UI glitch", issue_body := "b",
          issue_url := "", repository := "r" }).severity = some "Medium"
    ∧ (perform_ai_analysis
        { classify_severity := fun _ _ => .ok "High",
          summarize_issue := fun _ _ => .error "Gemini unavailable" }
        { issue_id := 104, issue_title := "UI glitch", issue_body := "b",
          issue_url := "", repository := "r" }).ai_summary = some ("Issue: " ++ "UI glitch") :=
  (C9_analysis_fallback
      { classify_severity := fun _ _ => .ok "High",
        summarize_issue := fun _ _ => .error "Gemini unavailable" }
      { issue_id := 104, issue_title := "UI glitch", issue_body := "b",
        issue_url := "", repository := "r" }).1
    (Or.inr ⟨"High", "Gemini unavailable", rfl, rfl⟩)

/-- C10: a resolved decision whose kind is outside `approve`/`reject`/
`timeout` matches no execution branch: the phase performs no collaborator
call and leaves the state — in particular the action map — untouched (first
conjunct); and a full triage whose interactive channel delivers the
`"modify"` record produced by `ModifyModal.on_submit` completes with
`success = true`, an empty action map and no collaborator call (second
conjunct). -/
theorem C10_unknown_decision_kind_silent_noop (d : Decision)
    (h1 : d.decision ≠ "approve") (h2 : d.decision ≠ "reject")
    (h3 : d.decision ≠ "timeout") :
    (∀ (gh : StoreOracle) (s : TriageState), execute_decision gh d s = (s, []))
    ∧ (∀ (o : Oracles) (reg : Registry) (issue : IssueData) (k : Nat)
         (sev txt : String) (b : Bool),
        o.channel = { webhook_configured := true, bot_import_ok := true,
                      webhook_post_ok := true,
                      bot := { channel_ok := true, send_ok := true,
                               resolution := some (k, modify_modal_decision sev txt b) } } →
        k ≤ timeout_duration →
        (triage_new_issue o reg issue).1.success = true
        ∧ (triage_new_issue o reg issue).1.actions_executed = []
        ∧ (triage_new_issue o reg issue).2.1 = []) := by
  constructor
  · intro gh s
    exact execute_decision_unknown_kind gh d s h1 h2 h3
  · intro o reg issue k sev txt b hch hk
    have hman : (manager_send_triage_request o.channel reg
        (perform_duplicate_detection o.dup
          (perform_ai_analysis o.ai (TriageState.init issue))).issue_id).1
        = .ok (modify_modal_decision sev txt b) := by
      rw [hch]
      exact manager_send_ok_of_resolved k (modify_modal_decision sev txt b) reg _ hk
    have hm : (modify_modal_decision sev txt b).decision = "modify" := rfl
    have ha : (modify_modal_decision sev txt b).decision ≠ "approve" := by rw [hm]; decide
    have hr : (modify_modal_decision sev txt b).decision ≠ "reject" := by rw [hm]; decide
    have ht : (modify_modal_decision sev txt b).decision ≠ "timeout" := by rw [hm]; decide
    rcases hb : manager_send_triage_request o.channel reg
        (perform_duplicate_detection o.dup
          (perform_ai_analysis o.ai (TriageState.init issue))).issue_id
      with ⟨res, regOut⟩
    rw [hb] at hman
    simp only at hman
    subst hman
    simp only [triage_new_issue, hb]
    rw [execute_decision_unknown_kind o.gh (modify_modal_decision sev txt b) _ ha hr ht]
    refine ⟨?_, ?_, ?_⟩
    · trivial
    · simp [perform_ai_analysis_actions, perform_duplicate_detection_actions, TriageState.init]
    · rfl

/-- Witness for C10 with the concrete `"modify"` record (decision kind
`"modify"` is outside the three handled kinds) and a concrete end-to-end
run. -/
theorem C10_unknown_decision_kind_silent_noop_witness :
    execute_decision
        { post_comment := fun _ _ => true, add_label := fun _ _ => true,
          close_issue := fun _ _ => true }
        (modify_modal_decision "High" "new text" false)
        { issue_id := 105, issue_title := "t", issue_body := "b",
          issue_url := "", repository := "r" }
      = ({ issue_id := 105, issue_title := "t", issue_body := "b",
           issue_url := "", repository := "r" }, [])
    ∧ (triage_new_issue
        { ai := { classify_severity := fun _ _ => .ok "High",
                  summarize_issue := fun _ _ => .ok "summary" }
          dup := { find_duplicate := fun _ _ _ => .ok (none, none) }
          channel := { webhook_configured := true, bot_import_ok := true,
                       webhook_post_ok := true,
                       bot := { channel_ok := true, send_ok := true,
                                resolution := some (3, modify_modal_decision "High" "new text" false) } }
          gh := { post_comment := fun _ _ => true, add_label := fun _ _ => true,
                  close_issue := fun _ _ => true }
          completion_sent := true }
        [] { number := some 105, title := some "t", body := some "b" }).1.actions_executed
      = [] :=
  ⟨(C10_unknown_decision_kind_silent_noop (modify_modal_decision "High" "new text" false)
      (by decide) (by decide) (by decide)).1
      { post_comment := fun _ _ => true, add_label := fun _ _ => true,
        close_issue := fun _ _ => true }
      { issue_id := 105, issue_title := "t", issue_body := "b",
        issue_url := "", repository := "r" },
   ((C10_unknown_decision_kind_silent_noop (modify_modal_decision "High" "new text" false)
      (by decide) (by decide) (by decide)).2
      { ai := { classify_severity := fun _ _ => .ok "High",
                summarize_issue := fun _ _ => .ok "summary" }
        dup := { find_duplicate := fun _ _ _ => .ok (none, none) }
        channel := { webhook_configured := true, bot_import_ok := true,
                     webhook_post_ok := true,
                     bot := { channel_ok := true, send_ok := true,
                              resolution := some (3, modify_modal_decision "High" "new text" false) } }
        gh := { post_comment := fun _ _ => true, add_label := fun _ _ => true,
                close_issue := fun _ _ => true }
        completion_sent := true }
      [] { number := some 105, title := some "t", body := some "b" }
      3 "High" "new text" false rfl (by decide)).2.1⟩

/-- C1: evaluation of the pipeline at the failing input of the auto-approve
defect.  With `DISCORD_WEBHOOK_URL` unconfigured — one of the claim's failure
modes — `DiscordManager.send_triage_request` returns
`{"decision": "approve"}` instead of raising
(`discord_tools_portia.py` 291-293), so the whole triage reports
`success = true` with an auto-approved decision and executed actions, where
the claim (and the source's own `DO NOT AUTO-APPROVE` comments on every other
error path) require `success = false` with no decision branch executed. -/
theorem C1_unconfigured_channel_autoapproves :
    (triage_new_issue
      { ai := { classify_severity := fun _ _ => .ok "High",
                summarize_issue := fun _ _ => .ok "Users cannot log in." }
        dup := { find_duplicate := fun _ _ _ => .ok (none, none) }
        channel := { webhook_configured := false, bot_import_ok := true,
                     webhook_post_ok := true,
                     bot := { channel_ok := true, send_ok := true, resolution := none } }
        gh := { post_comment := fun _ _ => true, add_label := fun _ _ => true,
                close_issue := fun _ _ => true }
        completion_sent := true }
      [] { number := some 101, title := some "Login broken",
           body := some "All logins fail since the last deploy.",
           html_url := some "https://github.example/acme/app/issues/101",
           repository_full_name := some "acme/app" }).1
    = { success := true
        issue_number := 101
        severity := some "High"
        ai_summary := some "Users cannot log in."
        is_duplicate := false
        similarity_score := none
        human_decision := some { decision := "approve", data := {} }
        actions_executed := [("severity_label_added", true), ("summary_posted", true),
                             ("added_to_knowledge_base", true)]
        completion_sent := true
        error := none } := by
  decide

end TriageNinja
